import Mathlib

/-
Verification of the QueueCTL job-store core (src/job_queue.py, src/config.py).

Modelling choices, matched line by line against the Python source:
  * Timestamps are Nat.  The code stores fixed-width ISO-8601 strings
    ("%Y-%m-%dT%H:%M:%S.%fZ") and compares them with SQLite TEXT
    comparison, which on that zero-padded format agrees with
    chronological order, so Nat with ≤ is a faithful abstraction.
  * Python ints are modelled as Nat: every value the store writes into
    attempts / max_retries / timestamps is non-negative.
  * The jobs table is a List Job in rowid (insertion) order.  The id
    column is the PRIMARY KEY; SQL "UPDATE ... WHERE id=?" becomes a
    List.map that rewrites every row whose id matches, which coincides
    with the SQL behaviour whenever ids are unique (WFStore below).
  * "ORDER BY created_at LIMIT 1" has no secondary sort key; SQLite
    returns ties in scan (rowid) order, so pickOldest keeps the leftmost
    row among those of minimal created_at.
  * Strings stored in last_error are List Char (Python str is a sequence
    of code points; s[:512] takes the first 512 code points).
  * Config.get falls back to the DEFAULTS table ("max_retries"->"3",
    "backoff_base"->"2"); call sites additionally apply Python's
    truthiness fallback (cfg.get_int(k) or d), which also replaces a
    stored 0 by the default.
-/

namespace QueueCTL

/-- Job states as stored in the state column of the jobs table. -/
inductive JobState
  | pending
  | processing
  | completed
  | failed
  | dead
deriving DecidableEq

/-- One row of the jobs table (schema in init_db of src/job_queue.py). -/
structure Job where
  id : String
  command : String
  state : JobState
  attempts : Nat
  max_retries : Nat
  created_at : Nat
  updated_at : Nat
  next_run_at : Nat
  last_error : Option (List Char)
deriving DecidableEq

/-- Config rows that the job store reads (src/config.py): an entry of
none means the key is absent from the config table, so Config.get
returns the DEFAULTS value. -/
structure Config where
  max_retries : Option Nat
  backoff_base : Option Nat
deriving DecidableEq

/-- Value of cfg.get_int for the max_retries key: the stored value, else
int of DEFAULTS max_retries, which is 3. -/
def Config.get_int_max_retries (cfg : Config) : Nat :=
  cfg.max_retries.getD 3

/-- Value of cfg.get_int for the backoff_base key: the stored value, else
int of DEFAULTS backoff_base, which is 2. -/
def Config.get_int_backoff_base (cfg : Config) : Nat :=
  cfg.backoff_base.getD 2

/-- The backoff base mark_failed actually uses:
cfg.get_int of backoff_base or 2, where `or` is Python truthiness, so a
stored 0 also falls back to 2. -/
def effBackoffBase (cfg : Config) : Nat :=
  let c := cfg.get_int_backoff_base
  if c = 0 then 2 else c

/-- The durable store has unique job ids (id is the PRIMARY KEY). -/
def WFStore (db : List Job) : Prop :=
  (db.map Job.id).Nodup

instance (db : List Job) : Decidable (WFStore db) := by
  unfold WFStore
  infer_instance

/-- Enqueue payload (the JSON dict passed to JobQueue.enqueue); none
models an absent key. -/
structure JobPayload where
  id : Option String
  command : Option String
  max_retries : Option Nat
  attempts : Option Nat
  created_at : Option Nat
  updated_at : Option Nat
  last_error : Option (List Char)
deriving DecidableEq

/-- Errors of the enqueue path, as named in the spec taxonomy: a missing
command key raises (ValidationError; in the code a KeyError in enqueue,
checked up-front in cli.py) and a duplicate PRIMARY KEY makes the INSERT
fail (ConflictError; sqlite3.IntegrityError in the code).  Both leave
the store unchanged. -/
inductive EnqueueError
  | ValidationError
  | ConflictError
deriving DecidableEq

/-- Id generated when the payload has no (or an empty, hence falsy) id:
the code builds the string from the current time in milliseconds
(job-{int of now.timestamp() * 1000}); now is already our time value. -/
def genId (now : Nat) : String :=
  "job-" ++ toString now

/-- Local job_id of enqueue: the payload id unless the key is absent or
the value falsy (the empty string), in which case the time-based id is
generated. -/
def enqueueJobId (now : Nat) (p : JobPayload) : String :=
  match p.id with
  | none => genId now
  | some s => if s = "" then genId now else s

/-- Local max_retries of enqueue: the payload value when the key is
present, else cfg.get_int of max_retries or 3, where `or` is Python
truthiness so a stored 0 also falls back to 3. -/
def enqueueMaxRetries (cfg : Config) (p : JobPayload) : Nat :=
  match p.max_retries with
  | some m => m
  | none =>
    let c := cfg.get_int_max_retries
    if c = 0 then 3 else c

/-- The job dict that enqueue builds and inserts (the created_at and
updated_at payload keys also fall back to now when absent; their only
falsy string value, the empty string, has no Nat counterpart). -/
def enqueueJob (now : Nat) (cfg : Config) (p : JobPayload) (cmd : String) : Job :=
  { id := enqueueJobId now p
    command := cmd
    state := JobState.pending
    attempts := p.attempts.getD 0
    max_retries := enqueueMaxRetries cfg p
    created_at := p.created_at.getD now
    updated_at := p.updated_at.getD now
    next_run_at := now
    last_error := p.last_error }

/-- JobQueue.enqueue (src/job_queue.py lines 58-105).  Returns the
result together with the store after the call.  A payload without the
command key raises before the INSERT (KeyError in enqueue, reported as
ValidationError; cli.py checks the same condition up-front), and an
INSERT whose id collides with an existing PRIMARY KEY fails, both
leaving the store unchanged. -/
def enqueue (now : Nat) (cfg : Config) (p : JobPayload) (db : List Job) :
    Except EnqueueError Job × List Job :=
  match p.command with
  | none => (Except.error EnqueueError.ValidationError, db)
  | some cmd =>
    if db.any (fun k => decide (k.id = enqueueJobId now p)) then
      (Except.error EnqueueError.ConflictError, db)
    else
      (Except.ok (enqueueJob now cfg p cmd), db ++ [enqueueJob now cfg p cmd])

/-- Claim eligibility used by the UPDATE subquery of reserve_job:
state IN (pending, failed) AND next_run_at <= now. -/
def isEligible (now : Nat) (j : Job) : Bool :=
  decide ((j.state = JobState.pending ∨ j.state = JobState.failed) ∧
    j.next_run_at ≤ now)

/-- SELECT ... ORDER BY created_at LIMIT 1 on an already filtered list:
the leftmost (earliest rowid) row among those of minimal created_at. -/
def pickOldest : List Job → Option Job
  | [] => none
  | j :: rest =>
    match pickOldest rest with
    | none => some j
    | some k => if j.created_at ≤ k.created_at then some j else some k

/-- The SET clause of the claim UPDATE in reserve_job. -/
def claimUpdate (now : Nat) (j : Job) : Job :=
  { j with state := JobState.processing, updated_at := now, next_run_at := now }

/-- JobQueue.reserve_job (src/job_queue.py lines 109-158).  One atomic
UPDATE claims the oldest eligible job; the claimed row is then
re-selected by state=processing AND updated_at=now (ORDER BY created_at
LIMIT 1) — by timestamp, not by id, exactly as in the source. -/
def reserve_job (now : Nat) (db : List Job) : Option Job × List Job :=
  match pickOldest (db.filter (isEligible now)) with
  | none => (none, db)
  | some j =>
    let db' := db.map (fun k => if k.id = j.id then claimUpdate now k else k)
    (pickOldest (db'.filter (fun k =>
        decide (k.state = JobState.processing ∧ k.updated_at = now))), db')

/-- JobQueue.mark_completed (src/job_queue.py lines 162-176): an
unconditional UPDATE by id. -/
def mark_completed (now : Nat) (job_id : String) (db : List Job) : List Job :=
  db.map (fun k =>
    if k.id = job_id then
      { k with state := JobState.completed, updated_at := now }
    else k)

/-- The pure backoff/DLQ policy inside mark_failed (src/job_queue.py
lines 187-196): after incrementing the caller-observed attempts, the
target state is dead with next_run_at = now when they exceed the
caller-observed max_retries, else failed with
next_run_at = now + backoff_base ^ incremented attempts. -/
def failTarget (now : Nat) (cfg : Config) (attempts max_retries : Nat) :
    JobState × Nat :=
  if attempts + 1 > max_retries then
    (JobState.dead, now)
  else
    (JobState.failed, now + effBackoffBase cfg ^ (attempts + 1))

/-- JobQueue.mark_failed (src/job_queue.py lines 178-221): an
unconditional UPDATE by id writing the failTarget state and time, the
incremented attempts, and (error_msg or empty)[:512] — the first 512
code points — into last_error. -/
def mark_failed (now : Nat) (cfg : Config) (job_id : String)
    (attempts max_retries : Nat) (error_msg : List Char) (db : List Job) :
    List Job :=
  db.map (fun k =>
    if k.id = job_id then
      { k with state := (failTarget now cfg attempts max_retries).1,
               attempts := attempts + 1, updated_at := now,
               next_run_at := (failTarget now cfg attempts max_retries).2,
               last_error := some (error_msg.take 512) }
    else k)

/-- JobQueue.retry_dead_job (src/job_queue.py lines 277-295): UPDATE
guarded by id AND state=dead. -/
def retry_dead_job (now : Nat) (job_id : String) (db : List Job) : List Job :=
  db.map (fun k =>
    if k.id = job_id ∧ k.state = JobState.dead then
      { k with state := JobState.pending, attempts := 0, updated_at := now,
               next_run_at := now, last_error := none }
    else k)

/-- UTF-8 encoded size of one code point. -/
def charUtf8Size (c : Char) : Nat :=
  if c.toNat ≤ 0x7F then 1
  else if c.toNat ≤ 0x7FF then 2
  else if c.toNat ≤ 0xFFFF then 3
  else 4

/-- UTF-8 byte length of a stored string. -/
def utf8Len (s : List Char) : Nat :=
  (s.map charUtf8Size).sum

/-- Transitions of the state machine of spec section 4.1, self-loops
included (an operation that leaves the state unchanged is within the
machine). -/
def allowedTransition : JobState → JobState → Bool
  | JobState.pending, JobState.processing => true
  | JobState.failed, JobState.processing => true
  | JobState.processing, JobState.completed => true
  | JobState.processing, JobState.failed => true
  | JobState.processing, JobState.dead => true
  | JobState.dead, JobState.pending => true
  | s, t => decide (s = t)

/-- Row identity and the fields the spec calls immutable. -/
def rowKey (j : Job) : String × String × Nat × Nat :=
  (j.id, j.command, j.created_at, j.max_retries)

/-- Helper to build concrete job rows in witnesses. -/
def mkJob (i cmd : String) (st : JobState) (att mr ca ua nra : Nat) : Job :=
  { id := i, command := cmd, state := st, attempts := att, max_retries := mr,
    created_at := ca, updated_at := ua, next_run_at := nra, last_error := none }

/-- Config with neither key stored, so that both reads fall back to the
DEFAULTS table. -/
def cfg0 : Config :=
  { max_retries := none, backoff_base := none }

set_option maxRecDepth 100000

/-- Mapping a function that fixes every element of a list is the
identity on that list. -/
theorem map_eq_self_of {α : Type} {l : List α} {f : α → α}
    (h : ∀ x ∈ l, f x = x) : l.map f = l := by
  induction l with
  | nil => rfl
  | cons a t ih =>
    simp only [List.map_cons, h a (List.mem_cons_self a t),
      ih (fun x hx => h x (List.mem_cons_of_mem a hx))]

/-- A list is related elementwise to its image under a map as soon as the
relation holds at every element. -/
theorem forall₂_map_self {α β : Type} {R : α → β → Prop} {l : List α} {f : α → β}
    (h : ∀ x ∈ l, R x (f x)) : List.Forall₂ R l (l.map f) := by
  induction l with
  | nil => exact List.Forall₂.nil
  | cons a t ih =>
    exact List.Forall₂.cons (h a (List.mem_cons_self a t))
      (ih fun x hx => h x (List.mem_cons_of_mem a hx))

/-- The row selected by pickOldest comes from the list it scanned. -/
theorem pickOldest_mem : ∀ {l : List Job} {j : Job},
    pickOldest l = some j → j ∈ l := by
  intro l
  induction l with
  | nil => intro j h; simp [pickOldest] at h
  | cons a t ih =>
    intro j h
    rw [pickOldest] at h
    split at h
    · cases h
      exact List.mem_cons_self a t
    · split at h
      · cases h
        exact List.mem_cons_self a t
      · cases h
        exact List.mem_cons_of_mem a (ih (by assumption))

/-- C1: against a store holding two eligible pending jobs (ids a and b,
created_at 0 and 1), two serialized reserve_job calls that fall in the
same timestamp (now = 5, reachable because the claim UPDATE and the
re-select share one iso(utcnow()) string and concurrent workers can draw
the same string) both return job a: the first claims a and returns it,
the second claims b but the timestamp-based re-select hands back a
again.  So a given job is received by two concurrent callers, and only
one distinct job is returned instead of min(2 workers, 2 jobs) = 2,
refuting the at-most-one-claim property. -/
theorem reserve_job_duplicate_return :
    ((reserve_job 5 [mkJob "a" "c" JobState.pending 0 3 0 0 0,
        mkJob "b" "c" JobState.pending 0 3 1 0 0]).1).map Job.id = some "a" ∧
    ((reserve_job 5 (reserve_job 5 [mkJob "a" "c" JobState.pending 0 3 0 0 0,
        mkJob "b" "c" JobState.pending 0 3 1 0 0]).2).1).map Job.id = some "a" ∧
    ((reserve_job 5 (reserve_job 5 [mkJob "a" "c" JobState.pending 0 3 0 0 0,
        mkJob "b" "c" JobState.pending 0 3 1 0 0]).2).2).map
          (fun j => (j.id, j.state))
      = [("a", JobState.processing), ("b", JobState.processing)] := by
  decide

/-- C2: in a store where job a is already processing with
updated_at = 5 (claimed by another worker in the same timestamp) and job
b is pending and eligible, reserve_job at now = 5 updates row b to
processing but returns row a: the re-select matches on
state = processing and updated_at = now and takes the smallest
created_at, so the job returned is not the one whose row was updated. -/
theorem reserve_job_returns_wrong_row :
    ((reserve_job 5 [mkJob "a" "c" JobState.processing 0 3 0 5 9,
        mkJob "b" "c" JobState.pending 0 3 1 0 0]).1).map Job.id = some "a" ∧
    ((reserve_job 5 [mkJob "a" "c" JobState.processing 0 3 0 5 9,
        mkJob "b" "c" JobState.pending 0 3 1 0 0]).2).map
          (fun j => (j.id, j.state))
      = [("a", JobState.processing), ("b", JobState.processing)] := by
  decide

/-- Self-loops are within the state machine: an operation that leaves a
row's state unchanged performs no transition. -/
theorem allowedTransition_refl (s : JobState) : allowedTransition s s = true := by
  cases s <;> rfl

/-- C3 counterexample: mark_failed invoked on a job whose current state
is completed moves it to failed, a transition outside the machine of
spec section 4.1 (completed is terminal there). -/
theorem mark_failed_on_completed_escapes :
    (mark_failed 10 cfg0 "c" 0 3 ['e']
        [mkJob "c" "x" JobState.completed 0 3 0 0 0]).map Job.state
      = [JobState.failed] ∧
    allowedTransition JobState.completed JobState.failed = false := by
  decide

/-- C3 amended: reserve_job (on a store with unique ids) and
retry_dead_job only perform transitions of the machine of spec section
4.1 — reserve_job moves an eligible pending or failed job to processing
and retry_dead_job moves a dead job to pending; mark_completed and
mark_failed stay within the machine when invoked on a job in state
processing (the worker's usage), but they are unguarded updates by id,
so invoked on a job in any other state they can leave the machine
(mark_failed on a completed job, for instance). -/
theorem state_machine_transitions (now : Nat) (cfg : Config) (job_id : String)
    (attempts max_retries : Nat) (msg : List Char) (db : List Job) :
    (WFStore db →
      List.Forall₂ (fun a b => allowedTransition a.state b.state = true)
        db (reserve_job now db).2) ∧
    ((∀ j ∈ db, j.id = job_id → j.state = JobState.processing) →
      List.Forall₂ (fun a b => allowedTransition a.state b.state = true)
        db (mark_completed now job_id db)) ∧
    ((∀ j ∈ db, j.id = job_id → j.state = JobState.processing) →
      List.Forall₂ (fun a b => allowedTransition a.state b.state = true)
        db (mark_failed now cfg job_id attempts max_retries msg db)) ∧
    List.Forall₂ (fun a b => allowedTransition a.state b.state = true)
      db (retry_dead_job now job_id db) := by
  refine ⟨?_, ?_, ?_, ?_⟩
  · intro hwf
    rw [reserve_job]
    cases hp : pickOldest (db.filter (isEligible now)) with
    | none =>
      exact List.forall₂_same.2 fun x _ => allowedTransition_refl x.state
    | some j =>
      have hjmem := pickOldest_mem hp
      rw [List.mem_filter] at hjmem
      obtain ⟨hjdb, hel⟩ := hjmem
      have hel' := of_decide_eq_true hel
      apply forall₂_map_self
      intro k hk
      dsimp only
      by_cases hid : k.id = j.id
      · have hkj : k = j := List.inj_on_of_nodup_map hwf hk hjdb hid
        rw [if_pos hid, hkj]
        rcases hel'.1 with hs | hs
        · rw [hs]
          rfl
        · rw [hs]
          rfl
      · rw [if_neg hid]
        exact allowedTransition_refl k.state
  · intro hproc
    apply forall₂_map_self
    intro k hk
    dsimp only
    by_cases hid : k.id = job_id
    · rw [if_pos hid, hproc k hk hid]
      rfl
    · rw [if_neg hid]
      exact allowedTransition_refl k.state
  · intro hproc
    apply forall₂_map_self
    intro k hk
    dsimp only
    by_cases hid : k.id = job_id
    · rw [if_pos hid, hproc k hk hid]
      by_cases hm : attempts + 1 > max_retries
      · simp only [failTarget, if_pos hm]
        rfl
      · simp only [failTarget, if_neg hm]
        rfl
    · rw [if_neg hid]
      exact allowedTransition_refl k.state
  · apply forall₂_map_self
    intro k _
    dsimp only
    by_cases hc : k.id = job_id ∧ k.state = JobState.dead
    · rw [if_pos hc, hc.2]
      rfl
    · rw [if_neg hc]
      exact allowedTransition_refl k.state

/-- C3 witness: on concrete stores, a reserve_job claim, a
mark_completed and a mark_failed on a processing job, and a
retry_dead_job on a dead job all stay within the machine. -/
theorem state_machine_transitions_witness :
    List.Forall₂ (fun a b => allowedTransition a.state b.state = true)
      [mkJob "a" "x" JobState.pending 0 3 0 0 0]
      (reserve_job 5 [mkJob "a" "x" JobState.pending 0 3 0 0 0]).2 ∧
    List.Forall₂ (fun a b => allowedTransition a.state b.state = true)
      [mkJob "a" "x" JobState.processing 0 3 0 0 0]
      (mark_completed 6 "a" [mkJob "a" "x" JobState.processing 0 3 0 0 0]) ∧
    List.Forall₂ (fun a b => allowedTransition a.state b.state = true)
      [mkJob "a" "x" JobState.processing 0 3 0 0 0]
      (mark_failed 6 cfg0 "a" 0 3 ['e']
        [mkJob "a" "x" JobState.processing 0 3 0 0 0]) ∧
    List.Forall₂ (fun a b => allowedTransition a.state b.state = true)
      [mkJob "a" "x" JobState.dead 4 3 0 0 0]
      (retry_dead_job 7 "a" [mkJob "a" "x" JobState.dead 4 3 0 0 0]) :=
  ⟨(state_machine_transitions 5 cfg0 "a" 0 3 ['e']
      [mkJob "a" "x" JobState.pending 0 3 0 0 0]).1 (by decide),
   (state_machine_transitions 6 cfg0 "a" 0 3 ['e']
      [mkJob "a" "x" JobState.processing 0 3 0 0 0]).2.1 (by decide),
   (state_machine_transitions 6 cfg0 "a" 0 3 ['e']
      [mkJob "a" "x" JobState.processing 0 3 0 0 0]).2.2.1 (by decide),
   (state_machine_transitions 7 cfg0 "a" 0 3 ['e']
      [mkJob "a" "x" JobState.dead 4 3 0 0 0]).2.2.2⟩

/-- C4: mark_failed applies the pure backoff/DLQ policy: the default
backoff base (no backoff_base row in config) is 2; when the incremented
attempts exceed the caller-observed max_retries the target is dead with
next_run_at = now, otherwise failed with
next_run_at = now + backoff_base ^ incremented attempts (so with base 2
a job failing with observed attempts a is delayed by 2 ^ (a + 1)
seconds: 2, 4, 8, 16, ... on successive failures); and the matched row
is stored with exactly the incremented attempts and the policy's state
and time, so the policy applied at attempts 3, max_retries 2 yields
dead. -/
theorem mark_failed_policy (now : Nat) (cfg : Config) (job_id : String)
    (attempts max_retries : Nat) (msg : List Char) (db : List Job) :
    (cfg.backoff_base = none → effBackoffBase cfg = 2) ∧
    (attempts + 1 > max_retries →
      failTarget now cfg attempts max_retries = (JobState.dead, now)) ∧
    (attempts + 1 ≤ max_retries →
      failTarget now cfg attempts max_retries =
        (JobState.failed, now + effBackoffBase cfg ^ (attempts + 1))) ∧
    (∀ j ∈ mark_failed now cfg job_id attempts max_retries msg db,
      j.id = job_id →
        j.attempts = attempts + 1 ∧
        j.state = (failTarget now cfg attempts max_retries).1 ∧
        j.next_run_at = (failTarget now cfg attempts max_retries).2) := by
  refine ⟨?_, ?_, ?_, ?_⟩
  · intro h
    simp [effBackoffBase, Config.get_int_backoff_base, h]
  · intro h
    rw [failTarget, if_pos h]
  · intro h
    rw [failTarget, if_neg (by omega)]
  · intro j hj hid
    simp only [mark_failed, List.mem_map] at hj
    obtain ⟨k, hk, rfl⟩ := hj
    by_cases h : k.id = job_id
    · rw [if_pos h]
      exact ⟨rfl, rfl, rfl⟩
    · rw [if_neg h] at hid
      exact absurd hid h

/-- C4 witness: with no configured base the effective backoff base is 2;
the policy at observed attempts 3, max_retries 2 yields dead at once,
at observed attempts 1, max_retries 3 it yields failed after
2 ^ 2 = 4 seconds; and the row mark_failed writes for the spec's DLQ
test (attempts 3, max_retries 2) carries attempts 4 and the dead
state. -/
theorem mark_failed_policy_witness :
    effBackoffBase cfg0 = 2 ∧
    failTarget 10 cfg0 3 2 = (JobState.dead, 10) ∧
    failTarget 10 cfg0 1 3 = (JobState.failed, 10 + effBackoffBase cfg0 ^ (1 + 1)) ∧
    ({ mkJob "a" "c" JobState.dead 4 2 0 10 10 with
        last_error := some ['e'] }).attempts = 3 + 1 ∧
    ({ mkJob "a" "c" JobState.dead 4 2 0 10 10 with
        last_error := some ['e'] }).state = (failTarget 10 cfg0 3 2).1 :=
  ⟨(mark_failed_policy 10 cfg0 "a" 3 2 ['e'] []).1 rfl,
   (mark_failed_policy 10 cfg0 "a" 3 2 ['e'] []).2.1 (by omega),
   (mark_failed_policy 10 cfg0 "a" 1 3 ['e'] []).2.2.1 (by omega),
   ((mark_failed_policy 10 cfg0 "a" 3 2 ['e']
      [mkJob "a" "c" JobState.processing 3 2 0 0 0]).2.2.2
      { mkJob "a" "c" JobState.dead 4 2 0 10 10 with last_error := some ['e'] }
      (by decide) rfl).1,
   ((mark_failed_policy 10 cfg0 "a" 3 2 ['e']
      [mkJob "a" "c" JobState.processing 3 2 0 0 0]).2.2.2
      { mkJob "a" "c" JobState.dead 4 2 0 10 10 with last_error := some ['e'] }
      (by decide) rfl).2.1⟩

/-- C5 counterexample: mark_completed on a job currently in state dead
overwrites the state with completed, so it is not a no-op on dead
jobs. -/
theorem mark_completed_dead_not_noop :
    (mark_completed 5 "d" [mkJob "d" "c" JobState.dead 3 3 0 0 0]).map Job.state
        = [JobState.completed] ∧
    ¬ (mark_completed 5 "d" [mkJob "d" "c" JobState.dead 3 3 0 0 0]).map Job.state
        = [JobState.dead] := by
  decide

/-- C5 amended: mark_completed never errors; on a missing job id the
store is unchanged; the call is idempotent at the state level (a second
call changes no state, and on an already-completed job the first call
changes no state either); but it overwrites the state of a matched job
with completed unconditionally, so on a job in any other state — dead
included — it is not a no-op. -/
theorem mark_completed_spec (now now2 : Nat) (job_id : String) (db : List Job) :
    ((∀ j ∈ db, j.id ≠ job_id) → mark_completed now job_id db = db) ∧
    ((mark_completed now2 job_id (mark_completed now job_id db)).map Job.state
      = (mark_completed now job_id db).map Job.state) ∧
    ((∀ j ∈ db, j.id = job_id → j.state = JobState.completed) →
      (mark_completed now job_id db).map Job.state = db.map Job.state) ∧
    (∀ j ∈ mark_completed now job_id db, j.id = job_id →
      j.state = JobState.completed) := by
  refine ⟨?_, ?_, ?_, ?_⟩
  · intro h
    apply map_eq_self_of
    intro k hk
    exact if_neg (h k hk)
  · simp only [mark_completed, List.map_map]
    apply List.map_congr_left
    intro x _
    by_cases h : x.id = job_id <;> simp [Function.comp, h]
  · intro h
    simp only [mark_completed, List.map_map]
    apply List.map_congr_left
    intro x hx
    by_cases hc : x.id = job_id
    · simp [Function.comp, hc, h x hx hc]
    · simp [Function.comp, hc]
  · intro j hj hid
    simp only [mark_completed, List.mem_map] at hj
    obtain ⟨k, hk, rfl⟩ := hj
    by_cases h : k.id = job_id
    · simp [h]
    · rw [if_neg h] at hid
      exact absurd hid h

/-- C5 witness: a store without the id is unchanged; a second
mark_completed after a first changes no state; and on an
already-completed job the call changes no state. -/
theorem mark_completed_spec_witness :
    mark_completed 4 "x" [mkJob "a" "c" JobState.pending 0 3 0 0 0]
      = [mkJob "a" "c" JobState.pending 0 3 0 0 0] ∧
    (mark_completed 6 "a"
        (mark_completed 4 "a"
          [mkJob "a" "c" JobState.processing 0 3 0 0 0])).map Job.state
      = (mark_completed 4 "a"
          [mkJob "a" "c" JobState.processing 0 3 0 0 0]).map Job.state ∧
    (mark_completed 4 "a"
        [mkJob "a" "c" JobState.completed 0 3 0 0 0]).map Job.state
      = [mkJob "a" "c" JobState.completed 0 3 0 0 0].map Job.state :=
  ⟨(mark_completed_spec 4 6 "x"
      [mkJob "a" "c" JobState.pending 0 3 0 0 0]).1 (by decide),
   (mark_completed_spec 4 6 "a"
      [mkJob "a" "c" JobState.processing 0 3 0 0 0]).2.1,
   (mark_completed_spec 4 6 "a"
      [mkJob "a" "c" JobState.completed 0 3 0 0 0]).2.2.1 (by decide)⟩

/-- C6: retry_dead_job transitions a job to pending with attempts 0,
next_run_at = now and last_error cleared exactly when that job is
present in state dead; rows that do not match id and state dead are left
untouched, and when no row matches, the whole store is unchanged. -/
theorem retry_dead_job_spec (now : Nat) (job_id : String) (db : List Job) :
    ((∀ j ∈ db, j.id = job_id → j.state ≠ JobState.dead) →
      retry_dead_job now job_id db = db) ∧
    List.Forall₂ (fun j j' =>
      (j.id = job_id ∧ j.state = JobState.dead →
        j'.id = j.id ∧ j'.command = j.command ∧
        j'.state = JobState.pending ∧ j'.attempts = 0 ∧
        j'.next_run_at = now ∧ j'.next_run_at ≤ now ∧ j'.last_error = none) ∧
      (¬(j.id = job_id ∧ j.state = JobState.dead) → j' = j))
      db (retry_dead_job now job_id db) := by
  constructor
  · intro h
    apply map_eq_self_of
    intro k hk
    rw [if_neg]
    rintro ⟨hid, hst⟩
    exact h k hk hid hst
  · apply forall₂_map_self
    intro k _
    constructor
    · rintro ⟨hid, hst⟩
      rw [if_pos ⟨hid, hst⟩]
      simp
    · intro hn
      rw [if_neg hn]

/-- C6 witness: on a store holding a dead job d (attempts 7, an error
recorded) and a pending job p, retry_dead_job resets d and leaves p
alone; on a store where no row is dead with the given id it is the
identity. -/
theorem retry_dead_job_spec_witness :
    retry_dead_job 9 "d" [mkJob "p" "c" JobState.pending 0 3 0 0 0] =
      [mkJob "p" "c" JobState.pending 0 3 0 0 0] ∧
    List.Forall₂ (fun j j' =>
      (j.id = "d" ∧ j.state = JobState.dead →
        j'.id = j.id ∧ j'.command = j.command ∧
        j'.state = JobState.pending ∧ j'.attempts = 0 ∧
        j'.next_run_at = 9 ∧ j'.next_run_at ≤ 9 ∧ j'.last_error = none) ∧
      (¬(j.id = "d" ∧ j.state = JobState.dead) → j' = j))
      [{ mkJob "d" "c" JobState.dead 7 3 0 0 0 with
          last_error := some ['e'] },
        mkJob "p" "c" JobState.pending 0 3 0 0 0]
      (retry_dead_job 9 "d"
        [{ mkJob "d" "c" JobState.dead 7 3 0 0 0 with
            last_error := some ['e'] },
          mkJob "p" "c" JobState.pending 0 3 0 0 0]) :=
  ⟨(retry_dead_job_spec 9 "d" [mkJob "p" "c" JobState.pending 0 3 0 0 0]).1
      (by decide),
    (retry_dead_job_spec 9 "d"
      [{ mkJob "d" "c" JobState.dead 7 3 0 0 0 with
          last_error := some ['e'] },
        mkJob "p" "c" JobState.pending 0 3 0 0 0]).2⟩

/-- C7: enqueue on a payload without the command key fails with
ValidationError and the store is unchanged; with command present and no
id conflict it appends exactly one new job with state pending,
next_run_at = now, attempts the payload value defaulting to 0,
max_retries defaulting through the configuration to 3, and an id
synthesized from the time-based value when the payload supplies none; a
caller-supplied id already present in the store fails with
ConflictError and the store is unchanged. -/
theorem enqueue_spec (now : Nat) (cfg : Config) (p : JobPayload) (db : List Job) :
    (p.command = none →
      enqueue now cfg p db = (Except.error EnqueueError.ValidationError, db)) ∧
    (∀ job db', enqueue now cfg p db = (Except.ok job, db') →
      db' = db ++ [job] ∧
      job.state = JobState.pending ∧
      job.next_run_at = now ∧
      job.attempts = p.attempts.getD 0 ∧
      (p.max_retries = none → cfg.max_retries = none → job.max_retries = 3) ∧
      (p.id = none → job.id = genId now) ∧
      (∀ k ∈ db, k.id ≠ job.id)) ∧
    (∀ s c, p.id = some s → s ≠ "" → p.command = some c →
      (∃ k ∈ db, k.id = s) →
      enqueue now cfg p db = (Except.error EnqueueError.ConflictError, db)) := by
  refine ⟨?_, ?_, ?_⟩
  · intro h
    rw [enqueue, h]
  · intro job db' h
    cases hc : p.command with
    | none =>
      rw [enqueue, hc] at h
      simp at h
    | some cmd =>
      rw [enqueue, hc] at h
      dsimp only at h
      by_cases hany : db.any (fun k => decide (k.id = enqueueJobId now p)) = true
      · rw [if_pos hany] at h
        simp at h
      · rw [if_neg hany] at h
        injection h with h1 h2
        injection h1 with h3
        subst h3
        subst h2
        simp only [List.any_eq_true, decide_eq_true_eq, not_exists, not_and]
          at hany
        push_neg at hany
        refine ⟨rfl, rfl, rfl, rfl, ?_, ?_, ?_⟩
        · intro hpm hcm
          simp [enqueueJob, enqueueMaxRetries, hpm,
            Config.get_int_max_retries, hcm]
        · intro hpid
          simp [enqueueJob, enqueueJobId, hpid]
        · intro k hk
          exact hany k hk
  · intro s c hs hne hc hdup
    have hany : db.any (fun k => decide (k.id = enqueueJobId now p)) = true := by
      rw [List.any_eq_true]
      obtain ⟨k, hk, hks⟩ := hdup
      refine ⟨k, hk, ?_⟩
      simp [enqueueJobId, hs, hne, hks]
    rw [enqueue, hc]
    dsimp only
    rw [if_pos hany]

/-- C7 witness: a commandless payload is rejected with the store
unchanged; the default payload with command true enqueued at time 7 into
the empty store yields the pending job with the generated id, attempts
0, max_retries 3 and next_run_at 7; and re-enqueueing an id already in
the store is rejected with the store unchanged. -/
theorem enqueue_spec_witness :
    enqueue 7 cfg0
        { id := none, command := none, max_retries := none, attempts := none,
          created_at := none, updated_at := none, last_error := none }
        [mkJob "a" "c" JobState.pending 0 3 0 0 0]
      = (Except.error EnqueueError.ValidationError,
          [mkJob "a" "c" JobState.pending 0 3 0 0 0]) ∧
    [mkJob "job-7" "true" JobState.pending 0 3 7 7 7]
      = [] ++ [mkJob "job-7" "true" JobState.pending 0 3 7 7 7] ∧
    (mkJob "job-7" "true" JobState.pending 0 3 7 7 7).state
      = JobState.pending ∧
    (mkJob "job-7" "true" JobState.pending 0 3 7 7 7).next_run_at = 7 ∧
    (mkJob "job-7" "true" JobState.pending 0 3 7 7 7).attempts = 0 ∧
    (mkJob "job-7" "true" JobState.pending 0 3 7 7 7).max_retries = 3 ∧
    (mkJob "job-7" "true" JobState.pending 0 3 7 7 7).id = genId 7 ∧
    enqueue 3 cfg0
        { id := some "dup", command := some "y", max_retries := none,
          attempts := none, created_at := none, updated_at := none,
          last_error := none }
        [mkJob "dup" "c" JobState.pending 0 3 0 0 0]
      = (Except.error EnqueueError.ConflictError,
          [mkJob "dup" "c" JobState.pending 0 3 0 0 0]) :=
  ⟨(enqueue_spec 7 cfg0
      { id := none, command := none, max_retries := none, attempts := none,
        created_at := none, updated_at := none, last_error := none }
      [mkJob "a" "c" JobState.pending 0 3 0 0 0]).1 rfl,
   ((enqueue_spec 7 cfg0
      { id := none, command := some "true", max_retries := none,
        attempts := none, created_at := none, updated_at := none,
        last_error := none } []).2.1
      (mkJob "job-7" "true" JobState.pending 0 3 7 7 7)
      [mkJob "job-7" "true" JobState.pending 0 3 7 7 7] rfl).1,
   ((enqueue_spec 7 cfg0
      { id := none, command := some "true", max_retries := none,
        attempts := none, created_at := none, updated_at := none,
        last_error := none } []).2.1
      (mkJob "job-7" "true" JobState.pending 0 3 7 7 7)
      [mkJob "job-7" "true" JobState.pending 0 3 7 7 7] rfl).2.1,
   ((enqueue_spec 7 cfg0
      { id := none, command := some "true", max_retries := none,
        attempts := none, created_at := none, updated_at := none,
        last_error := none } []).2.1
      (mkJob "job-7" "true" JobState.pending 0 3 7 7 7)
      [mkJob "job-7" "true" JobState.pending 0 3 7 7 7] rfl).2.2.1,
   ((enqueue_spec 7 cfg0
      { id := none, command := some "true", max_retries := none,
        attempts := none, created_at := none, updated_at := none,
        last_error := none } []).2.1
      (mkJob "job-7" "true" JobState.pending 0 3 7 7 7)
      [mkJob "job-7" "true" JobState.pending 0 3 7 7 7] rfl).2.2.2.1,
   ((enqueue_spec 7 cfg0
      { id := none, command := some "true", max_retries := none,
        attempts := none, created_at := none, updated_at := none,
        last_error := none } []).2.1
      (mkJob "job-7" "true" JobState.pending 0 3 7 7 7)
      [mkJob "job-7" "true" JobState.pending 0 3 7 7 7] rfl).2.2.2.2.1
      rfl rfl,
   ((enqueue_spec 7 cfg0
      { id := none, command := some "true", max_retries := none,
        attempts := none, created_at := none, updated_at := none,
        last_error := none } []).2.1
      (mkJob "job-7" "true" JobState.pending 0 3 7 7 7)
      [mkJob "job-7" "true" JobState.pending 0 3 7 7 7] rfl).2.2.2.2.2.1
      rfl,
   (enqueue_spec 3 cfg0
      { id := some "dup", command := some "y", max_retries := none,
        attempts := none, created_at := none, updated_at := none,
        last_error := none }
      [mkJob "dup" "c" JobState.pending 0 3 0 0 0]).2.2 "dup" "y" rfl
      (by decide) rfl
      ⟨mkJob "dup" "c" JobState.pending 0 3 0 0 0, by decide, rfl⟩⟩

/-- C8 counterexample: enqueue trusts a payload-supplied attempts and
created_at: at now = 0 a payload with command x, attempts 5
(max_retries defaulting to 3) and created_at 10 creates a pending job
with attempts 5 > max_retries 3 and next_run_at 0 < created_at 10,
violating both claimed invariants at creation. -/
theorem enqueue_invariants_violated :
    (enqueue 0 cfg0
        { id := none, command := some "x", max_retries := none,
          attempts := some 5, created_at := some 10, updated_at := none,
          last_error := none }
        []).2
      = [mkJob "job-0" "x" JobState.pending 5 3 10 0 0] ∧
    (mkJob "job-0" "x" JobState.pending 5 3 10 0 0).state
      = JobState.pending ∧
    (mkJob "job-0" "x" JobState.pending 5 3 10 0 0).max_retries
      < (mkJob "job-0" "x" JobState.pending 5 3 10 0 0).attempts ∧
    (mkJob "job-0" "x" JobState.pending 5 3 10 0 0).next_run_at
      < (mkJob "job-0" "x" JobState.pending 5 3 10 0 0).created_at := by
  decide

/-- C8 amended: the invariants hold for the operations' own values but
not for arbitrary payloads: a job enqueued from a payload that supplies
neither attempts nor created_at has attempts 0 and
next_run_at = created_at = now, and mark_failed forces dead whenever the
incremented attempts exceed the caller-observed max_retries, keeps
attempts within max_retries in state failed, and never sets next_run_at
backwards past now; payloads supplying their own attempts or a future
created_at can create pending rows violating both invariants. -/
theorem job_invariants (now : Nat) (cfg : Config) (p : JobPayload)
    (db : List Job) (job_id : String) (attempts max_retries : Nat)
    (msg : List Char) :
    (∀ job db', p.attempts = none → p.created_at = none →
      enqueue now cfg p db = (Except.ok job, db') →
      job.attempts = 0 ∧ job.created_at = now ∧
      job.next_run_at = job.created_at) ∧
    (∀ j ∈ mark_failed now cfg job_id attempts max_retries msg db,
      j.id = job_id →
        (attempts + 1 > max_retries → j.state = JobState.dead) ∧
        (j.state = JobState.failed → j.attempts ≤ max_retries) ∧
        now ≤ j.next_run_at) := by
  constructor
  · intro job db' ha hca h
    cases hc : p.command with
    | none =>
      rw [enqueue, hc] at h
      simp at h
    | some cmd =>
      rw [enqueue, hc] at h
      dsimp only at h
      by_cases hany : db.any (fun k => decide (k.id = enqueueJobId now p)) = true
      · rw [if_pos hany] at h
        simp at h
      · rw [if_neg hany] at h
        injection h with h1 h2
        injection h1 with h3
        subst h3
        refine ⟨by simp [enqueueJob, ha], by simp [enqueueJob, hca], ?_⟩
        simp [enqueueJob, hca]
  · intro j hj hid
    simp only [mark_failed, List.mem_map] at hj
    obtain ⟨k, hk, rfl⟩ := hj
    by_cases h : k.id = job_id
    · rw [if_pos h]
      refine ⟨?_, ?_, ?_⟩
      · intro hm
        simp only [failTarget, if_pos hm]
      · intro hf
        by_cases hm : attempts + 1 > max_retries
        · simp only [failTarget, if_pos hm] at hf
          simp at hf
        · show attempts + 1 ≤ max_retries
          omega
      · by_cases hm : attempts + 1 > max_retries
        · simp only [failTarget, if_pos hm]
          exact Nat.le_refl now
        · simp only [failTarget, if_neg hm]
          exact Nat.le_add_right now _
    · rw [if_neg h] at hid
      exact absurd hid h

/-- C8 witness: the job enqueued at time 5 from a payload without
attempts and created_at satisfies the invariants, and the row written by
mark_failed at observed attempts 2, max_retries 3 is failed with
attempts 3 within the budget and next_run_at not before now. -/
theorem job_invariants_witness :
    (mkJob "job-5" "c" JobState.pending 0 3 5 5 5).attempts = 0 ∧
    (mkJob "job-5" "c" JobState.pending 0 3 5 5 5).created_at = 5 ∧
    (mkJob "job-5" "c" JobState.pending 0 3 5 5 5).next_run_at
      = (mkJob "job-5" "c" JobState.pending 0 3 5 5 5).created_at ∧
    ({ mkJob "a" "c" JobState.failed 3 3 0 9 17 with
        last_error := some [] }).attempts ≤ 3 ∧
    9 ≤ ({ mkJob "a" "c" JobState.failed 3 3 0 9 17 with
        last_error := some [] }).next_run_at :=
  ⟨((job_invariants 5 cfg0
      { id := none, command := some "c", max_retries := none,
        attempts := none, created_at := none, updated_at := none,
        last_error := none } [] "a" 0 0 []).1
      (mkJob "job-5" "c" JobState.pending 0 3 5 5 5)
      [mkJob "job-5" "c" JobState.pending 0 3 5 5 5] rfl rfl rfl).1,
   ((job_invariants 5 cfg0
      { id := none, command := some "c", max_retries := none,
        attempts := none, created_at := none, updated_at := none,
        last_error := none } [] "a" 0 0 []).1
      (mkJob "job-5" "c" JobState.pending 0 3 5 5 5)
      [mkJob "job-5" "c" JobState.pending 0 3 5 5 5] rfl rfl rfl).2.1,
   ((job_invariants 5 cfg0
      { id := none, command := some "c", max_retries := none,
        attempts := none, created_at := none, updated_at := none,
        last_error := none } [] "a" 0 0 []).1
      (mkJob "job-5" "c" JobState.pending 0 3 5 5 5)
      [mkJob "job-5" "c" JobState.pending 0 3 5 5 5] rfl rfl rfl).2.2,
   ((job_invariants 9 cfg0
      { id := none, command := some "c", max_retries := none,
        attempts := none, created_at := none, updated_at := none,
        last_error := none }
      [mkJob "a" "c" JobState.processing 2 3 0 0 0] "a" 2 3 []).2
      { mkJob "a" "c" JobState.failed 3 3 0 9 17 with last_error := some [] }
      (by decide) rfl).2.1 rfl,
   ((job_invariants 9 cfg0
      { id := none, command := some "c", max_retries := none,
        attempts := none, created_at := none, updated_at := none,
        last_error := none }
      [mkJob "a" "c" JobState.processing 2 3 0 0 0] "a" 2 3 []).2
      { mkJob "a" "c" JobState.failed 3 3 0 9 17 with last_error := some [] }
      (by decide) rfl).2.2⟩

/-- C9 counterexample: the code truncates to 512 code points, not 512
bytes: failing a job with an error message of 513 copies of the
two-byte character é stores the first 512 of them as last_error, a value
of 1024 UTF-8 bytes, where a truncation to at most 512 bytes stores at
most 512. -/
theorem last_error_not_byte_truncated :
    (mark_failed 0 cfg0 "a" 0 3 (List.replicate 513 'é')
        [mkJob "a" "c" JobState.processing 0 3 0 0 0]).map Job.last_error
      = [some (List.replicate 512 'é')] ∧
    utf8Len (List.replicate 512 'é') = 1024 ∧
    512 < utf8Len (List.replicate 512 'é') := by
  decide

/-- C9 amended: for every error message, mark_failed stores as
last_error the message truncated to at most 512 characters (code
points, which for non-ASCII messages can exceed 512 bytes), and
retry_dead_job clears last_error to null on a dead job. -/
theorem last_error_spec (now : Nat) (cfg : Config) (job_id : String)
    (attempts max_retries : Nat) (msg : List Char) (db : List Job) :
    (∀ j ∈ mark_failed now cfg job_id attempts max_retries msg db,
      j.id = job_id →
        j.last_error = some (msg.take 512) ∧
        (msg.take 512).length ≤ 512) ∧
    (∀ j ∈ db, j.id = job_id → j.state = JobState.dead →
      { j with state := JobState.pending, attempts := 0, updated_at := now,
               next_run_at := now, last_error := none }
        ∈ retry_dead_job now job_id db) := by
  constructor
  · intro j hj hid
    simp only [mark_failed, List.mem_map] at hj
    obtain ⟨k, hk, rfl⟩ := hj
    by_cases h : k.id = job_id
    · rw [if_pos h]
      refine ⟨rfl, ?_⟩
      rw [List.length_take]
      exact Nat.min_le_left _ _
    · rw [if_neg h] at hid
      exact absurd hid h
  · intro j hj hid hst
    simp only [retry_dead_job, List.mem_map]
    refine ⟨j, hj, ?_⟩
    dsimp only
    rw [if_pos ⟨hid, hst⟩]

/-- C9 witness: failing job a with the two-character message xy stores
exactly that message (its 512-point truncation, of length at most 512),
and retrying the dead job d yields its reset row in the store. -/
theorem last_error_spec_witness :
    ({ mkJob "a" "c" JobState.failed 1 3 0 9 11 with
        last_error := some ['x', 'y'] }).last_error
      = some (['x', 'y'].take 512) ∧
    (['x', 'y'].take 512).length ≤ 512 ∧
    mkJob "d" "c" JobState.pending 0 3 0 9 9
      ∈ retry_dead_job 9 "d"
          [{ mkJob "d" "c" JobState.dead 4 3 0 0 0 with
              last_error := some ['e'] }] :=
  ⟨((last_error_spec 9 cfg0 "a" 0 3 ['x', 'y']
      [mkJob "a" "c" JobState.processing 0 3 0 0 0]).1
      { mkJob "a" "c" JobState.failed 1 3 0 9 11 with
          last_error := some ['x', 'y'] }
      (by decide) rfl).1,
   ((last_error_spec 9 cfg0 "a" 0 3 ['x', 'y']
      [mkJob "a" "c" JobState.processing 0 3 0 0 0]).1
      { mkJob "a" "c" JobState.failed 1 3 0 9 11 with
          last_error := some ['x', 'y'] }
      (by decide) rfl).2,
   (last_error_spec 9 cfg0 "d" 0 3 []
      [{ mkJob "d" "c" JobState.dead 4 3 0 0 0 with
          last_error := some ['e'] }]).2
      { mkJob "d" "c" JobState.dead 4 3 0 0 0 with last_error := some ['e'] }
      (by decide) rfl rfl⟩

/-- C10: reserve_job, mark_completed, mark_failed and retry_dead_job
never insert or delete rows: they keep the list of rows pointwise, each
row retaining its id, command, created_at and max_retries; a successful
enqueue appends exactly one new job, whose id no existing row
carries. -/
theorem store_rows_stable (now : Nat) (cfg : Config) (job_id : String)
    (attempts max_retries : Nat) (msg : List Char) (db : List Job) :
    ((reserve_job now db).2.map rowKey = db.map rowKey) ∧
    ((mark_completed now job_id db).map rowKey = db.map rowKey) ∧
    ((mark_failed now cfg job_id attempts max_retries msg db).map rowKey
      = db.map rowKey) ∧
    ((retry_dead_job now job_id db).map rowKey = db.map rowKey) ∧
    (∀ p job db', enqueue now cfg p db = (Except.ok job, db') →
      db' = db ++ [job] ∧ ∀ k ∈ db, k.id ≠ job.id) := by
  refine ⟨?_, ?_, ?_, ?_, ?_⟩
  · rw [reserve_job]
    cases hp : pickOldest (db.filter (isEligible now)) with
    | none => rfl
    | some j =>
      simp only [List.map_map]
      apply List.map_congr_left
      intro x _
      by_cases h : x.id = j.id <;>
        simp [Function.comp, rowKey, claimUpdate, h]
  · simp only [mark_completed, List.map_map]
    apply List.map_congr_left
    intro x _
    by_cases h : x.id = job_id <;> simp [Function.comp, rowKey, h]
  · simp only [mark_failed, List.map_map]
    apply List.map_congr_left
    intro x _
    by_cases h : x.id = job_id <;> simp [Function.comp, rowKey, h]
  · simp only [retry_dead_job, List.map_map]
    apply List.map_congr_left
    intro x _
    by_cases h : x.id = job_id ∧ x.state = JobState.dead <;>
      simp [Function.comp, rowKey, h]
  · intro p job db' h
    cases hc : p.command with
    | none =>
      rw [enqueue, hc] at h
      simp at h
    | some cmd =>
      rw [enqueue, hc] at h
      dsimp only at h
      by_cases hany : db.any (fun k => decide (k.id = enqueueJobId now p)) = true
      · rw [if_pos hany] at h
        simp at h
      · rw [if_neg hany] at h
        injection h with h1 h2
        injection h1 with h3
        subst h3
        subst h2
        simp only [List.any_eq_true, decide_eq_true_eq, not_exists, not_and]
          at hany
        push_neg at hany
        exact ⟨rfl, fun k hk => hany k hk⟩

/-- C10 witness: a reserve_job call leaves the row keys of a concrete
store unchanged, and a successful enqueue into the empty store appends
exactly the one created job. -/
theorem store_rows_stable_witness :
    (reserve_job 5 [mkJob "a" "c" JobState.pending 0 3 0 0 0]).2.map rowKey
      = [mkJob "a" "c" JobState.pending 0 3 0 0 0].map rowKey ∧
    [mkJob "job-7" "true" JobState.pending 0 3 7 7 7]
      = ([] : List Job) ++ [mkJob "job-7" "true" JobState.pending 0 3 7 7 7] :=
  ⟨(store_rows_stable 5 cfg0 "a" 0 3 []
      [mkJob "a" "c" JobState.pending 0 3 0 0 0]).1,
   ((store_rows_stable 7 cfg0 "a" 0 3 [] []).2.2.2.2
      { id := none, command := some "true", max_retries := none,
        attempts := none, created_at := none, updated_at := none,
        last_error := none }
      (mkJob "job-7" "true" JobState.pending 0 3 7 7 7)
      [mkJob "job-7" "true" JobState.pending 0 3 7 7 7] rfl).1⟩

end QueueCTL
